import Mathlib

/-!
Verification of the deployment-orchestration engine of the repository
(Express routes for deployments plus the docker utility module).

The JavaScript source is shallowly embedded: every externally visible
action (store writes, socket events, docker/git calls, logger calls) is
recorded in an explicit trace of `Ev` events, and every fallible external
call is resolved by an oracle `DockerEnv` supplied as a parameter.  The
control flow (sequencing, try/catch, early return, throw) is translated
faithfully from the source files.
-/

set_option maxHeartbeats 1000000

/-- Deployment lifecycle status values used by the routes and docker utils. -/
inductive Status
  | initializing
  | cloning
  | building
  | starting
  | running
  | restarting
  | failed
deriving DecidableEq, Repr

/-- The mutable deployment record (mongoose `Deployment` model as used by
the routes: `_id`, `user`, `name`, `repoUrl`, `branch`, `envVars`,
`buildCommand`, `startCommand`, `status`, `containerId`, `url`, `logs`). -/
structure Deployment where
  id : String
  user : String
  name : Option String := none
  repoUrl : String
  branch : String
  envVars : List (String × String)
  buildCommand : String
  startCommand : String
  status : Status
  containerId : Option String := none
  url : Option String := none
  logs : Option String := none
deriving DecidableEq, Repr

/-- Observable external actions of the routes and docker utils. -/
inductive Ev
  | createRecord (d : Deployment)
  | save (d : Deployment)
  | removeRecord (id : String)
  | emit (channel : String) (event : String) (deploymentId : String)
      (status : Option Status) (logs : Option String)
  | clone (url : String) (dir : String) (branch : String)
  | writeFile (path : String) (content : String)
  | buildImage (tag : String) (buildargs : List (String × String))
  | createContainer (image : String) (cname : String) (env : List String)
  | startContainer (cid : String)
  | stopC (cid : String)
  | removeC (cid : String)
  | restartC (cid : String)
  | removeImage (ref : String)
  | listContainersQ
  | listImagesQ
  | rmWorkspace (dir : String)
  | log (msg : String)
deriving DecidableEq, Repr

/-- Oracle resolving every external call made by one route invocation.
`none` / `.ok` means the call succeeds; `some msg` / `.error msg` means it
throws an error with message `msg`.  List results model what
`docker.listContainers` / `docker.listImages` return: pairs of an id and
the `Names` / `RepoTags` list. -/
structure DockerEnv where
  domain : String := "deploybot.app"
  cloneResult : Option String := none
  dockerfileExists : Bool := false
  buildImageResult : Option String := none
  createContainerResult : Except String String := .ok "c0ffee00c0ffee00c0ffee00"
  startResult : Option String := none
  listContainersResult : Except String (List (String × List String)) := .ok []
  cleanupStopResult : Option String := none
  cleanupRemoveResult : Option String := none
  listImagesResult : Except String (List (String × List String)) := .ok []
  removeImageResult : Option String := none
  restartResult : Option String := none
  stopStopResult : Option String := none
  stopRemoveResult : Option String := none
  stopListImagesResult : Except String (List (String × List String)) := .ok []
  stopRemoveImageResult : Option String := none
  workspaceExists : Bool := true
  rmWorkspaceResult : Option String := none

/-- Root directory under which repositories are cloned (`REPOS_DIR`). -/
def REPOS_DIR : String := "repos"

/-- Workspace directory of a deployment: `path.join(REPOS_DIR, deployment._id)`. -/
def repoDirOf (d : Deployment) : String := REPOS_DIR ++ "/" ++ d.id

/-- Image tag built for a deployment: `deploybot-${deployment._id}`. -/
def imageTagOf (d : Deployment) : String := "deploybot-" ++ d.id

/-- Tag searched for in `listImages` results: `deploybot-${deployment._id}:latest`. -/
def imageTagLatest (d : Deployment) : String := "deploybot-" ++ d.id ++ ":latest"

/-- Container name: `deploybot-${deployment._id}-${user.id}`. -/
def containerNameOf (d : Deployment) (userId : String) : String :=
  "deploybot-" ++ d.id ++ "-" ++ userId

/-- Name searched for in `listContainers` results (docker prefixes a slash). -/
def slashContainerNameOf (d : Deployment) (userId : String) : String :=
  "/" ++ containerNameOf d userId

/-- The deployment url assigned on a successful start:
`http://${container.id.slice(0, 12)}.${DEPLOYMENT_DOMAIN}`. -/
def urlOf (domain : String) (cid : String) : String :=
  "http://" ++ cid.take 12 ++ "." ++ domain

/-- The Dockerfile synthesized when the workspace has none (the template
string of `buildAndStartContainer`, after `.trim()`). -/
def dockerfileContent (buildCommand startCommand : String) : String :=
  "FROM node:14\nWORKDIR /app\nCOPY . .\nRUN " ++ buildCommand ++
    "\nCMD " ++ startCommand

/-- JavaScript `a || b` on an optional string field (absent or empty falls
back to the default). -/
def jsOr (o : Option String) (dflt : String) : String :=
  match o with
  | some s => if s = "" then dflt else s
  | none => dflt

/-- Container-removal half of the cleanup `try` block: list containers,
find the one named after deployment+owner, stop and remove it.  Returns
the trace and the first error (which aborts the rest of the `try`). -/
def contCleanup (env : DockerEnv) (d : Deployment) (userId : String) :
    List Ev × Option String :=
  match env.listContainersResult with
  | .error e => ([.listContainersQ], some e)
  | .ok cs =>
    match cs.find? (fun c => c.2.contains (slashContainerNameOf d userId)) with
    | none => ([.listContainersQ], none)
    | some ci =>
      match env.cleanupStopResult with
      | some e => ([.listContainersQ, .stopC ci.1], some e)
      | none =>
        match env.cleanupRemoveResult with
        | some e => ([.listContainersQ, .stopC ci.1, .removeC ci.1], some e)
        | none => ([.listContainersQ, .stopC ci.1, .removeC ci.1], none)

/-- Image-removal half of the cleanup `try` block: list images, find the
deployment's tag, remove it. -/
def imgCleanup (env : DockerEnv) (d : Deployment) : List Ev × Option String :=
  match env.listImagesResult with
  | .error e => ([.listImagesQ], some e)
  | .ok imgs =>
    match imgs.find? (fun img => img.2.contains (imageTagLatest d)) with
    | none => ([.listImagesQ], none)
    | some ii =>
      match env.removeImageResult with
      | some e => ([.listImagesQ, .removeImage ii.1], some e)
      | none => ([.listImagesQ, .removeImage ii.1], none)

/-- Body of the cleanup `try` block in the catch of `buildAndStartContainer`. -/
def cleanupBody (env : DockerEnv) (d : Deployment) (userId : String) :
    List Ev × Option String :=
  let p := contCleanup env d userId
  match p.2 with
  | some e => (p.1, some e)
  | none =>
    let q := imgCleanup env d
    (p.1 ++ q.1, q.2)

/-- Cleanup on error: the `try { ... } catch (cleanupErr) { logger.error }`
block.  Any failure of the body is logged and swallowed; cleanup never
throws. -/
def cleanup (env : DockerEnv) (d : Deployment) (userId : String) : List Ev :=
  let p := cleanupBody env d userId
  match p.2 with
  | some msg => p.1 ++ [.log ("Cleanup failed: " ++ msg)]
  | none => p.1

/-- Result of a docker-util call: the deployment object as mutated, the
trace of external actions, and the thrown error message, if any. -/
structure PipeResult where
  dep : Deployment
  trace : List Ev
  err : Option String
deriving DecidableEq, Repr

/-- Which pipeline stage fails first, given only the stage oracles
(clone, image build, container create, container start); `none` when the
whole pipeline succeeds.  Notably independent of the cleanup oracles. -/
def stageFailure (env : DockerEnv) : Option String :=
  match env.cloneResult with
  | some e => some e
  | none =>
    match env.buildImageResult with
    | some e => some e
    | none =>
      match env.createContainerResult with
      | .error e => some e
      | .ok _ => env.startResult

/-- Model of `buildAndStartContainer(deployment, user)`: clone, synthesize a
Dockerfile when missing, build the image, create and start the container;
persist a status + logs transition before each stage; on any stage error
run cleanup and rethrow the original error. -/
def buildAndStartContainer (env : DockerEnv) (d0 : Deployment)
    (userId : String) : PipeResult :=
  let repoDir := repoDirOf d0
  let d1 : Deployment :=
    { d0 with status := .cloning, logs := some "Cloning repository..." }
  let tr1 : List Ev := [.save d1, .clone d0.repoUrl repoDir d0.branch]
  match env.cloneResult with
  | some e => { dep := d1, trace := tr1 ++ cleanup env d1 userId, err := some e }
  | none =>
    let tr2 := tr1 ++
      (if env.dockerfileExists then []
       else [Ev.writeFile (repoDir ++ "/Dockerfile")
              (dockerfileContent d0.buildCommand d0.startCommand)])
    let d2 : Deployment :=
      { d1 with status := .building, logs := some "Building Docker image..." }
    let tr3 := tr2 ++ [.save d2, .buildImage (imageTagOf d0) d0.envVars]
    match env.buildImageResult with
    | some e => { dep := d2, trace := tr3 ++ cleanup env d2 userId, err := some e }
    | none =>
      let d3 : Deployment :=
        { d2 with status := .starting, logs := some "Starting container..." }
      let tr4 := tr3 ++ [.save d3,
        .createContainer (imageTagOf d0) (containerNameOf d0 userId)
          (d0.envVars.map (fun p => p.1 ++ "=" ++ p.2))]
      match env.createContainerResult with
      | .error e =>
        { dep := d3, trace := tr4 ++ cleanup env d3 userId, err := some e }
      | .ok cid =>
        let tr5 := tr4 ++ [.startContainer cid]
        match env.startResult with
        | some e =>
          { dep := d3, trace := tr5 ++ cleanup env d3 userId, err := some e }
        | none =>
          let d4 : Deployment :=
            { d3 with containerId := some cid, status := .running,
                      logs := some "Container running successfully",
                      url := some (urlOf env.domain cid) }
          { dep := d4, trace := tr5 ++ [.save d4], err := none }

/-- Model of `restartContainer(deployment)`: throws when no `containerId` is
recorded; otherwise restarts the container, persisting `running` on
success and `failed` (with a message) on failure, rethrowing the error. -/
def restartContainer (env : DockerEnv) (d : Deployment) : PipeResult :=
  match d.containerId with
  | none => { dep := d, trace := [], err := some "Container ID not found" }
  | some cid =>
    match env.restartResult with
    | none =>
      let d' : Deployment :=
        { d with status := .running, logs := some "Container restarted successfully" }
      { dep := d', trace := [.restartC cid, .save d'], err := none }
    | some e =>
      let d' : Deployment :=
        { d with status := .failed, logs := some ("Restart failed: " ++ e) }
      { dep := d', trace := [.restartC cid, .save d'], err := some e }

/-- Stop/remove steps of `stopContainer`'s `try` block up to and including
image removal; the first failure aborts the rest. -/
def stopSteps (env : DockerEnv) (d : Deployment) (cid : String) :
    List Ev × Option String :=
  match env.stopStopResult with
  | some e => ([.stopC cid], some e)
  | none =>
    match env.stopRemoveResult with
    | some e => ([.stopC cid, .removeC cid], some e)
    | none =>
      match env.stopListImagesResult with
      | .error e => ([.stopC cid, .removeC cid, .listImagesQ], some e)
      | .ok imgs =>
        match imgs.find? (fun img => img.2.contains (imageTagLatest d)) with
        | none => ([.stopC cid, .removeC cid, .listImagesQ], none)
        | some ii =>
          match env.stopRemoveImageResult with
          | some e =>
            ([.stopC cid, .removeC cid, .listImagesQ, .removeImage ii.1], some e)
          | none =>
            ([.stopC cid, .removeC cid, .listImagesQ, .removeImage ii.1], none)

/-- Workspace removal at the end of `stopContainer`'s `try` block:
`if (fs.existsSync(repoDir)) fs.rmSync(repoDir, { recursive: true })`. -/
def wsRemove (env : DockerEnv) (d : Deployment) : List Ev × Option String :=
  if env.workspaceExists then
    match env.rmWorkspaceResult with
    | some e => ([.rmWorkspace (repoDirOf d)], some e)
    | none => ([.rmWorkspace (repoDirOf d)], none)
  else ([], none)

/-- Result of `stopContainer`: trace plus the thrown error, if any. -/
structure StopResult where
  trace : List Ev
  err : Option String
deriving DecidableEq, Repr

/-- Model of `stopContainer(deployment)`: returns immediately when no
`containerId` is recorded; otherwise stops and removes the container,
removes the image and the workspace; any error in the `try` block is
logged and rethrown. -/
def stopContainer (env : DockerEnv) (d : Deployment) : StopResult :=
  match d.containerId with
  | none => { trace := [], err := none }
  | some cid =>
    let p := stopSteps env d cid
    match p.2 with
    | some e =>
      { trace := p.1 ++ [.log ("Error stopping container: " ++ e)], err := some e }
    | none =>
      let q := wsRemove env d
      match q.2 with
      | some e =>
        { trace := p.1 ++ q.1 ++ [.log ("Error stopping container: " ++ e)],
          err := some e }
      | none => { trace := p.1 ++ q.1, err := none }

/-- JavaScript regex `.` character class: any character except the four
line terminators. -/
def isDotChar (c : Char) : Bool :=
  c ≠ '\n' && c ≠ '\r' && c.toNat ≠ 0x2028 && c.toNat ≠ 0x2029

/-- Matcher for the suffix pattern of the validation regex after the
literal: zero or more `.` characters, then `/`, then one `.` character;
succeeds when a prefix of the input matches. -/
def auxT : List Char → Bool
  | [] => false
  | c :: rest =>
    (c == '/' && (match rest with
      | c2 :: _ => isDotChar c2
      | [] => false))
    || (isDotChar c && auxT rest)

/-- Matcher for `.+\/.+` against a prefix of the input. -/
def matchTail (l : List Char) : Bool :=
  match l with
  | [] => false
  | c :: rest => isDotChar c && auxT rest

/-- The literal part of the validation regex: `github\.com\/`. -/
def ghLit : List Char := "github.com/".data

/-- Scan for the regex `github\.com\/.+\/.+` starting at every position
(JavaScript `String.prototype.match` is unanchored). -/
def ghScan : List Char → Bool
  | [] => false
  | l@(_ :: rest) =>
    (ghLit.isPrefixOf l && matchTail (l.drop ghLit.length)) || ghScan rest

/-- The route's repository-URL validation guard:
`repoUrl.match(/github\.com\/.+\/.+/)` is non-null. -/
def validRepoUrl (s : String) : Bool := ghScan s.data

/-- The body of a POST /api/deployments request, with absent fields as
`none`. -/
structure CreateReq where
  repoUrl : Option String := none
  branch : Option String := none
  envVars : List (String × String) := []
  buildCommand : Option String := none
  startCommand : Option String := none
  name : Option String := none

/-- The body of a PUT /api/deployments/:id request. -/
structure UpdateReq where
  envVars : Option (List (String × String)) := none
  buildCommand : Option String := none
  startCommand : Option String := none
  name : Option String := none

/-- A thrown JavaScript error, distinguishing `TypeError` (from
dereferencing `undefined`) from ordinary `Error`. -/
inductive JsError
  | typeError (msg : String)
  | error (msg : String)
deriving DecidableEq, Repr

/-- Outcome of a route invocation: a JSON response or an uncaught throw
handed to the express error middleware. -/
inductive RouteOutcome
  | ok (code : Nat) (dep : Deployment)
  | okEmpty (code : Nat)
  | fail (code : Nat) (msg : String) (dep : Deployment)
  | thrown (e : JsError)
deriving DecidableEq, Repr

/-- The deployment record created by `Deployment.create` in the POST /
route, given a validated repoUrl. -/
def mkDeployment (req : CreateReq) (userId : String) (newId : String)
    (url : String) : Deployment :=
  { id := newId, user := userId, name := req.name, repoUrl := url,
    branch := jsOr req.branch "main", envVars := req.envVars,
    buildCommand := jsOr req.buildCommand "npm install",
    startCommand := jsOr req.startCommand "npm start",
    status := .initializing, containerId := none, url := none, logs := none }

/-- Error message of the TypeError raised by `repoUrl.match(...)` when
`repoUrl` is `undefined`. -/
def repoUrlTypeErrorMsg : String :=
  "Cannot read properties of undefined (reading match)"

/-- Model of `router.post('/')`: validate the repoUrl, create the record, emit the
`initializing` event, run `buildAndStartContainer`; on pipeline failure
persist `failed`, emit the failure event and answer 500, else answer 201. -/
def postDeployments (env : DockerEnv) (req : CreateReq) (userId : String)
    (newId : String) : RouteOutcome × List Ev :=
  match req.repoUrl with
  | none => (.thrown (.typeError repoUrlTypeErrorMsg), [])
  | some url =>
    if validRepoUrl url then
      let d := mkDeployment req userId newId url
      let tr0 : List Ev := [.createRecord d,
        .emit userId "deployment_update" d.id (some .initializing) none]
      let r := buildAndStartContainer env d userId
      match r.err with
      | some e =>
        let df : Deployment := { r.dep with status := .failed, logs := some e }
        (.fail 500 "Deployment failed to start" df,
         tr0 ++ r.trace ++
           [.log ("Deployment failed: " ++ e), .save df,
            .emit userId "deployment_update" df.id (some .failed) (some e)])
      | none => (.ok 201 r.dep, tr0 ++ r.trace)
    else (.thrown (.error "Invalid GitHub repository URL"), [])

/-- Result of a route acting on an existing deployment. -/
structure RouteRes where
  out : RouteOutcome
  dep : Deployment
  trace : List Ev
deriving DecidableEq, Repr

/-- Model of `router.put('/:id')`: update only envVars / buildCommand /
startCommand / name, each only when truthy in the request body; save and
emit a `deployment_update` carrying the current status. -/
def updateRoute (req : UpdateReq) (d : Deployment) (userId : String) :
    RouteRes :=
  let d1 := match req.envVars with
    | some l => { d with envVars := l }
    | none => d
  let d2 := match req.buildCommand with
    | some s => if s = "" then d1 else { d1 with buildCommand := s }
    | none => d1
  let d3 := match req.startCommand with
    | some s => if s = "" then d2 else { d2 with startCommand := s }
    | none => d2
  let d4 := match req.name with
    | some s => if s = "" then d3 else { d3 with name := some s }
    | none => d3
  { out := .ok 200 d4, dep := d4,
    trace := [.save d4,
      .emit userId "deployment_update" d.id (some d4.status) none] }

/-- Model of `router.post('/:id/restart')`: persist and emit `restarting`, call
`restartContainer`; on error persist `failed` with the message, emit the
failure event and answer 500, else answer 200. -/
def restartRoute (env : DockerEnv) (d : Deployment) (userId : String) :
    RouteRes :=
  let d1 : Deployment := { d with status := .restarting }
  let tr0 : List Ev := [.save d1,
    .emit userId "deployment_update" d.id (some .restarting) none]
  let r := restartContainer env d1
  match r.err with
  | some e =>
    let df : Deployment := { r.dep with status := .failed, logs := some e }
    { out := .fail 500 "Restart failed" df, dep := df,
      trace := tr0 ++ r.trace ++
        [.log ("Restart failed: " ++ e), .save df,
         .emit userId "deployment_update" d.id (some .failed) (some e)] }
  | none => { out := .ok 200 r.dep, dep := r.dep, trace := tr0 ++ r.trace }

/-- Model of `router.delete('/:id')`: try `stopContainer` (logging and swallowing
its error), remove the storage record, emit `deployment_removed`, answer
200. -/
def deleteRoute (env : DockerEnv) (d : Deployment) (userId : String) :
    RouteOutcome × List Ev :=
  let s := stopContainer env d
  let tr1 := s.trace ++
    (match s.err with
     | some e => [Ev.log ("Error stopping container: " ++ e)]
     | none => [])
  (.okEmpty 200,
   tr1 ++ [.removeRecord d.id, .emit userId "deployment_removed" d.id none none])

/-- Statuses written to the Deployment Store (create or save), in order. -/
def recordWrites : List Ev → List Status
  | [] => []
  | .createRecord d :: t => d.status :: recordWrites t
  | .save d :: t => d.status :: recordWrites t
  | _ :: t => recordWrites t

/-- Events published on the Event Bus: (channel, event name, status field),
in order. -/
def emits : List Ev → List (String × String × Option Status)
  | [] => []
  | .emit ch e _ st _ :: t => (ch, e, st) :: emits t
  | _ :: t => emits t

/-- Events that the cleanup block can produce. -/
def isCleanupish : Ev → Bool
  | .listContainersQ => true
  | .listImagesQ => true
  | .stopC _ => true
  | .removeC _ => true
  | .removeImage _ => true
  | .log _ => true
  | _ => false

/-- The set of strings the validation guard accepts: those containing a
contiguous substring `github.com/` ++ x ++ `/` ++ c where x is a nonempty
run of regex-dot characters and c is a regex-dot character. -/
def ghMatches (s : String) : Prop :=
  ∃ a x c b, s.data = a ++ ghLit ++ x ++ '/' :: c :: b ∧ x ≠ [] ∧
    (∀ ch ∈ x, isDotChar ch = true) ∧ isDotChar c = true

/-- All-defaults oracle: every external call succeeds. -/
def happyEnv : DockerEnv := {}

/-- A typical valid creation request. -/
def req1 : CreateReq :=
  { repoUrl := some "https://github.com/a/b", branch := some "main",
    envVars := [("PORT", "8080")] }

/-- A deployment record with a recorded container reference. -/
def recDep : Deployment :=
  { id := "id1", user := "u1", name := none,
    repoUrl := "https://github.com/a/b", branch := "main",
    envVars := [("PORT", "8080")], buildCommand := "npm install",
    startCommand := "npm start", status := .running,
    containerId := some "c123", url := some "http://c123.deploybot.app",
    logs := none }

/-- Oracle where the runtime reports the container missing on `stop`
(removed out-of-band). -/
def goneEnv : DockerEnv :=
  { stopStopResult := some "(HTTP code 404) no such container" }

/-- Oracle whose clone stage fails. -/
def cloneFailEnv : DockerEnv :=
  { cloneResult := some "fatal: could not read from remote" }

/-- Oracle whose `container.stop()` fails during `stopContainer`. -/
def stopFailEnv : DockerEnv := { stopStopResult := some "stop exploded" }

/-- Oracle whose `fs.rmSync` fails at the end of `stopContainer`'s try
block, every earlier step succeeding. -/
def rmFailEnv : DockerEnv :=
  { rmWorkspaceResult := some "EACCES: permission denied" }

/-- The running-status invariant: a recorded container reference
determines the url, and status `running` implies a container reference is
recorded. -/
def depInv (domain : String) (d : Deployment) : Prop :=
  (∀ c, d.containerId = some c → d.url = some (urlOf domain c)) ∧
  (d.status = .running → d.containerId ≠ none)

/-- The deployment produced by a fully successful Start at the default
oracle. -/
def runDep : Deployment :=
  (buildAndStartContainer happyEnv
    (mkDeployment req1 "u1" "id1" "https://github.com/a/b") "u1").dep

lemma bsc_err (env : DockerEnv) (d : Deployment) (u : String) :
    (buildAndStartContainer env d u).err = stageFailure env := by
  unfold buildAndStartContainer stageFailure
  rcases h1 : env.cloneResult with _ | e1 <;>
    rcases h2 : env.buildImageResult with _ | e2 <;>
      rcases h3 : env.createContainerResult with e3 | cid <;>
        rcases h4 : env.startResult with _ | e4 <;>
          simp [h1, h2, h3, h4]

lemma contCleanup_only (env : DockerEnv) (d : Deployment) (u : String) :
    ∀ e ∈ (contCleanup env d u).1, isCleanupish e = true := by
  intro e he
  unfold contCleanup at he
  repeat' split at he
  all_goals try dsimp only at he
  all_goals fin_cases he <;> rfl

lemma imgCleanup_only (env : DockerEnv) (d : Deployment) :
    ∀ e ∈ (imgCleanup env d).1, isCleanupish e = true := by
  intro e he
  unfold imgCleanup at he
  repeat' split at he
  all_goals try dsimp only at he
  all_goals fin_cases he <;> rfl

lemma cleanupBody_only (env : DockerEnv) (d : Deployment) (u : String) :
    ∀ e ∈ (cleanupBody env d u).1, isCleanupish e = true := by
  intro e he
  unfold cleanupBody at he
  dsimp only at he
  split at he
  · exact contCleanup_only env d u e he
  · rcases List.mem_append.mp he with h | h
    · exact contCleanup_only env d u e h
    · exact imgCleanup_only env d e h

lemma cleanup_only (env : DockerEnv) (d : Deployment) (u : String) :
    ∀ e ∈ cleanup env d u, isCleanupish e = true := by
  intro e he
  unfold cleanup at he
  dsimp only at he
  split at he
  · rcases List.mem_append.mp he with h | h
    · exact cleanupBody_only env d u e h
    · simp at h; subst h; rfl
  · exact cleanupBody_only env d u e he

lemma not_mem_cleanup (env : DockerEnv) (d : Deployment) (u : String)
    (e : Ev) (hne : isCleanupish e = false) : e ∉ cleanup env d u := by
  intro he
  have := cleanup_only env d u e he
  rw [hne] at this
  exact Bool.false_ne_true this

lemma listQ_mem_contCleanup (env : DockerEnv) (d : Deployment) (u : String) :
    Ev.listContainersQ ∈ (contCleanup env d u).1 := by
  unfold contCleanup
  repeat' split
  all_goals simp

lemma listQ_mem_cleanup (env : DockerEnv) (d : Deployment) (u : String) :
    Ev.listContainersQ ∈ cleanup env d u := by
  unfold cleanup cleanupBody
  dsimp only
  rcases h1 : (contCleanup env d u).2 with _ | m
  all_goals dsimp only
  · rcases h2 : (imgCleanup env d).2 with _ | m2
    all_goals simp [listQ_mem_contCleanup]
  · simp [listQ_mem_contCleanup]

lemma cleanup_log (env : DockerEnv) (d : Deployment) (u : String)
    (m : String) (h : (cleanupBody env d u).2 = some m) :
    Ev.log ("Cleanup failed: " ++ m) ∈ cleanup env d u := by
  unfold cleanup
  dsimp only
  rw [h]
  simp

lemma auxT_iff (l : List Char) :
    auxT l = true ↔ ∃ x c t, l = x ++ '/' :: c :: t ∧
      (∀ ch ∈ x, isDotChar ch = true) ∧ isDotChar c = true := by
  induction l with
  | nil =>
    simp only [auxT, Bool.false_eq_true, false_iff]
    rintro ⟨x, c, t, h, -, -⟩
    rcases x with _ | ⟨b, x'⟩ <;> simp at h
  | cons a rest ih =>
    constructor
    · intro h
      simp only [auxT, Bool.or_eq_true, Bool.and_eq_true] at h
      rcases h with ⟨ha, hm⟩ | ⟨ha, hrest⟩
      · rcases rest with _ | ⟨c2, t2⟩
        · simp at hm
        · refine ⟨[], c2, t2, ?_, by simp, hm⟩
          simp [beq_iff_eq.mp ha]
      · rcases ih.mp hrest with ⟨x, c, t, hl, hx, hc⟩
        refine ⟨a :: x, c, t, by simp [hl], ?_, hc⟩
        intro ch hch
        rcases List.mem_cons.mp hch with h | h
        · subst h; exact ha
        · exact hx ch h
    · rintro ⟨x, c, t, hl, hx, hc⟩
      rcases x with _ | ⟨b, x'⟩
      · simp only [List.nil_append, List.cons.injEq] at hl
        rcases hl with ⟨ha, hrest⟩
        subst ha; subst hrest
        simp [auxT, hc]
      · simp only [List.cons_append, List.cons.injEq] at hl
        rcases hl with ⟨hab, hrest⟩
        subst hab
        have hrest' : auxT rest = true :=
          ih.mpr ⟨x', c, t, hrest,
            fun ch h => hx ch (List.mem_cons_of_mem _ h), hc⟩
        have ha : isDotChar a = true := hx a (List.mem_cons_self _ _)
        simp [auxT, ha, hrest']

lemma matchTail_iff (l : List Char) :
    matchTail l = true ↔ ∃ x c t, l = x ++ '/' :: c :: t ∧ x ≠ [] ∧
      (∀ ch ∈ x, isDotChar ch = true) ∧ isDotChar c = true := by
  rcases l with _ | ⟨a, rest⟩
  · simp only [matchTail, Bool.false_eq_true, false_iff]
    rintro ⟨x, c, t, h, -, -, -⟩
    rcases x with _ | ⟨b, x'⟩ <;> simp at h
  · simp only [matchTail, Bool.and_eq_true]
    constructor
    · rintro ⟨ha, hrest⟩
      rcases (auxT_iff rest).mp hrest with ⟨x, c, t, hl, hx, hc⟩
      refine ⟨a :: x, c, t, by simp [hl], by simp, ?_, hc⟩
      intro ch hch
      rcases List.mem_cons.mp hch with h | h
      · subst h; exact ha
      · exact hx ch h
    · rintro ⟨x, c, t, hl, hxne, hx, hc⟩
      rcases x with _ | ⟨b, x'⟩
      · exact absurd rfl hxne
      · simp only [List.cons_append, List.cons.injEq] at hl
        rcases hl with ⟨hab, hrest⟩
        subst hab
        exact ⟨hx a (List.mem_cons_self _ _),
          (auxT_iff rest).mpr ⟨x', c, t, hrest,
            fun ch h => hx ch (List.mem_cons_of_mem _ h), hc⟩⟩

lemma ghLit_ne : ghLit ≠ [] := by decide

lemma ghScan_iff (l : List Char) :
    ghScan l = true ↔ ∃ a t, l = a ++ ghLit ++ t ∧ matchTail t = true := by
  induction l with
  | nil =>
    simp only [ghScan, Bool.false_eq_true, false_iff]
    rintro ⟨a, t, h, -⟩
    rcases a with _ | ⟨b, a'⟩
    · simp at h
      exact ghLit_ne h.1
    · simp at h
  | cons b rest ih =>
    constructor
    · intro h
      simp only [ghScan, Bool.or_eq_true, Bool.and_eq_true] at h
      rcases h with ⟨hp, hm⟩ | hscan
      · rcases List.isPrefixOf_iff_prefix.mp hp with ⟨t, ht⟩
        refine ⟨[], t, by simp [ht.symm], ?_⟩
        rwa [← ht, List.drop_left] at hm
      · rcases ih.mp hscan with ⟨a, t, hl, hm⟩
        exact ⟨b :: a, t, by simp [hl], hm⟩
    · rintro ⟨a, t, hl, hm⟩
      simp only [ghScan, Bool.or_eq_true, Bool.and_eq_true]
      rcases a with _ | ⟨c, a'⟩
      · simp only [List.nil_append] at hl
        left
        constructor
        · exact List.isPrefixOf_iff_prefix.mpr ⟨t, hl.symm⟩
        · rw [hl, List.drop_left]
          exact hm
      · simp only [List.cons_append, List.cons.injEq] at hl
        rcases hl with ⟨-, hrest⟩
        exact Or.inr (ih.mpr ⟨a', t, hrest, hm⟩)

lemma validRepoUrl_iff (s : String) : validRepoUrl s = true ↔ ghMatches s := by
  unfold validRepoUrl ghMatches
  rw [ghScan_iff]
  constructor
  · rintro ⟨a, t, hl, hm⟩
    rcases (matchTail_iff t).mp hm with ⟨x, c, b, ht, hxne, hx, hc⟩
    refine ⟨a, x, c, b, ?_, hxne, hx, hc⟩
    rw [hl, ht]
    simp [List.append_assoc]
  · rintro ⟨a, x, c, b, hl, hxne, hx, hc⟩
    refine ⟨a, x ++ '/' :: c :: b, ?_,
      (matchTail_iff _).mpr ⟨x, c, b, rfl, hxne, hx, hc⟩⟩
    rw [hl]
    simp [List.append_assoc]

lemma writeFile_not_mem_cleanup (env : DockerEnv) (d : Deployment)
    (u p c : String) : Ev.writeFile p c ∉ cleanup env d u :=
  not_mem_cleanup env d u _ rfl

lemma buildImage_not_mem_cleanup (env : DockerEnv) (d : Deployment)
    (u t : String) (a : List (String × String)) :
    Ev.buildImage t a ∉ cleanup env d u :=
  not_mem_cleanup env d u _ rfl

lemma createContainer_not_mem_cleanup (env : DockerEnv) (d : Deployment)
    (u i n : String) (v : List String) :
    Ev.createContainer i n v ∉ cleanup env d u :=
  not_mem_cleanup env d u _ rfl

lemma startContainer_not_mem_cleanup (env : DockerEnv) (d : Deployment)
    (u c : String) : Ev.startContainer c ∉ cleanup env d u :=
  not_mem_cleanup env d u _ rfl

lemma stopSteps_only (env : DockerEnv) (d : Deployment) (cid : String) :
    ∀ e ∈ (stopSteps env d cid).1, isCleanupish e = true := by
  intro e he
  unfold stopSteps at he
  repeat' split at he
  all_goals try dsimp only at he
  all_goals fin_cases he <;> rfl

lemma rmWorkspace_not_mem_stopSteps (env : DockerEnv) (d : Deployment)
    (cid dir : String) : Ev.rmWorkspace dir ∉ (stopSteps env d cid).1 := by
  intro h
  exact Bool.false_ne_true (stopSteps_only env d cid _ h)

lemma stopSteps_err_none (env : DockerEnv) (d : Deployment) (cid : String)
    (h : (stopSteps env d cid).2 = none) :
    env.stopStopResult = none ∧ env.stopRemoveResult = none := by
  unfold stopSteps at h
  rcases h1 : env.stopStopResult with _ | e1
  · rcases h2 : env.stopRemoveResult with _ | e2
    · exact ⟨rfl, rfl⟩
    · rw [h1, h2] at h
      simp at h
  · rw [h1] at h
    simp at h

lemma wsRemove_nonempty_workspace (env : DockerEnv) (d : Deployment)
    (dir : String) (h : Ev.rmWorkspace dir ∈ (wsRemove env d).1) :
    env.workspaceExists = true := by
  unfold wsRemove at h
  rcases hw : env.workspaceExists
  · rw [hw] at h
    simp at h
  · rfl

lemma stageFailure_none (env : DockerEnv) (h : stageFailure env = none) :
    env.cloneResult = none ∧ env.buildImageResult = none ∧
    (∃ cid, env.createContainerResult = .ok cid) ∧ env.startResult = none := by
  unfold stageFailure at h
  rcases h1 : env.cloneResult with _ | e1 <;> rw [h1] at h
  · rcases h2 : env.buildImageResult with _ | e2 <;> rw [h2] at h
    · rcases h3 : env.createContainerResult with e3 | cid <;> rw [h3] at h
      · simp at h
      · exact ⟨rfl, rfl, ⟨cid, rfl⟩, h⟩
    · simp at h
  · simp at h

lemma stopSteps_err_stop (env : DockerEnv) (d : Deployment) (cid e : String)
    (h : env.stopStopResult = some e) : (stopSteps env d cid).2 = some e := by
  unfold stopSteps
  rw [h]

lemma stopSteps_err_remove (env : DockerEnv) (d : Deployment)
    (cid e : String) (h1 : env.stopStopResult = none)
    (h2 : env.stopRemoveResult = some e) :
    (stopSteps env d cid).2 = some e := by
  unfold stopSteps
  rw [h1, h2]

lemma stopSteps_err_listImages (env : DockerEnv) (d : Deployment)
    (cid e : String) (h1 : env.stopStopResult = none)
    (h2 : env.stopRemoveResult = none)
    (h3 : env.stopListImagesResult = .error e) :
    (stopSteps env d cid).2 = some e := by
  unfold stopSteps
  rw [h1, h2, h3]

lemma stopSteps_err_removeImage (env : DockerEnv) (d : Deployment)
    (cid e : String) (imgs : List (String × List String))
    (ii : String × List String) (h1 : env.stopStopResult = none)
    (h2 : env.stopRemoveResult = none)
    (h3 : env.stopListImagesResult = .ok imgs)
    (h4 : imgs.find? (fun img => img.2.contains (imageTagLatest d)) =
      some ii)
    (h5 : env.stopRemoveImageResult = some e) :
    (stopSteps env d cid).2 = some e := by
  unfold stopSteps
  rw [h1, h2, h3]
  dsimp only
  rw [h4, h5]

lemma wsRemove_err_some (env : DockerEnv) (d : Deployment) (e : String)
    (hw : env.workspaceExists = true) (hr : env.rmWorkspaceResult = some e) :
    (wsRemove env d).2 = some e := by
  unfold wsRemove
  simp [hw, hr]

lemma stopContainer_err_of_steps (env : DockerEnv) (d : Deployment)
    (cid e : String) (hc : d.containerId = some cid)
    (h : (stopSteps env d cid).2 = some e) :
    (stopContainer env d).err = some e ∧
    Ev.log ("Error stopping container: " ++ e) ∈
      (stopContainer env d).trace := by
  unfold stopContainer
  rw [hc]
  dsimp only
  rw [h]
  dsimp only
  exact ⟨rfl, by simp⟩

lemma stopContainer_err_of_ws (env : DockerEnv) (d : Deployment)
    (cid e : String) (hc : d.containerId = some cid)
    (hs : (stopSteps env d cid).2 = none) (hw : (wsRemove env d).2 = some e) :
    (stopContainer env d).err = some e ∧
    Ev.log ("Error stopping container: " ++ e) ∈
      (stopContainer env d).trace := by
  unfold stopContainer
  rw [hc]
  dsimp only
  rw [hs]
  dsimp only
  rw [hw]
  dsimp only
  exact ⟨rfl, by simp⟩

lemma stopSteps_none_inv (env : DockerEnv) (d : Deployment) (cid : String)
    (h : (stopSteps env d cid).2 = none) :
    env.stopStopResult = none ∧ env.stopRemoveResult = none ∧
    ∃ imgs, env.stopListImagesResult = .ok imgs ∧
      (∀ ii, imgs.find? (fun img => img.2.contains (imageTagLatest d)) =
          some ii → env.stopRemoveImageResult = none) := by
  unfold stopSteps at h
  rcases h1 : env.stopStopResult with _ | e1
  · rcases h2 : env.stopRemoveResult with _ | e2
    · rcases h3 : env.stopListImagesResult with e3 | imgs
      · rw [h1, h2, h3] at h
        simp at h
      · refine ⟨rfl, rfl, imgs, rfl, ?_⟩
        intro ii hii
        rcases h5 : env.stopRemoveImageResult with _ | e5
        · rfl
        · rw [h1, h2, h3] at h
          dsimp only at h
          rw [hii] at h
          dsimp only at h
          rw [h5] at h
          simp at h
    · rw [h1, h2] at h
      simp at h
  · rw [h1] at h
    simp at h

/-- C10: a creation request with `repoUrl` absent throws a TypeError from
`repoUrl.match(...)` before any validation error and before any record
creation (empty trace); the validation guard accepts exactly the strings
containing a `github.com/<x>/<y>` substring in the sense of the regex. -/
theorem c10_create_typeerror_and_guard :
    (∀ (env : DockerEnv) (req : CreateReq) (u nid : String),
      req.repoUrl = none →
        postDeployments env req u nid =
          (.thrown (.typeError repoUrlTypeErrorMsg), [])) ∧
    (∀ s : String, validRepoUrl s = true ↔ ghMatches s) := by
  constructor
  · intro env req u nid h
    unfold postDeployments
    rw [h]
  · exact validRepoUrl_iff

/-- Witness for C10 at a concrete request with `repoUrl` absent and a
concrete accepted string. -/
theorem c10_witness :
    (({ } : CreateReq).repoUrl = none ∧
      postDeployments happyEnv { } "u1" "id1" =
        (.thrown (.typeError repoUrlTypeErrorMsg), [])) ∧
    (validRepoUrl "https://github.com/a/b" = true ↔
      ghMatches "https://github.com/a/b") :=
  ⟨⟨rfl, c10_create_typeerror_and_guard.1 happyEnv { } "u1" "id1" rfl⟩,
    c10_create_typeerror_and_guard.2 "https://github.com/a/b"⟩

/-- C3: the error surfaced by `buildAndStartContainer` is always the
originating stage error (`stageFailure`, computed from the stage oracles
alone); two oracles agreeing on the stage outcomes but differing
arbitrarily on the cleanup outcomes surface the same error, and a cleanup
failure is logged. -/
theorem c3_cleanup_never_masks :
    ∀ (env env' : DockerEnv) (d : Deployment) (u m : String),
      env.cloneResult = env'.cloneResult →
      env.buildImageResult = env'.buildImageResult →
      env.createContainerResult = env'.createContainerResult →
      env.startResult = env'.startResult →
      (buildAndStartContainer env d u).err = stageFailure env ∧
      (buildAndStartContainer env d u).err =
        (buildAndStartContainer env' d u).err ∧
      ((cleanupBody env d u).2 = some m →
        Ev.log ("Cleanup failed: " ++ m) ∈ cleanup env d u) := by
  intro env env' d u m h1 h2 h3 h4
  refine ⟨bsc_err env d u, ?_, cleanup_log env d u m⟩
  rw [bsc_err env d u, bsc_err env' d u]
  unfold stageFailure
  rw [h1, h2, h3, h4]

/-- Witness for C3: an oracle whose build stage fails combined with an
otherwise identical oracle whose cleanup calls all fail. -/
theorem c3_witness :
    (buildAndStartContainer
        { buildImageResult := some "build exploded" } recDep "u1").err =
      stageFailure { buildImageResult := some "build exploded" } ∧
    (buildAndStartContainer
        { buildImageResult := some "build exploded" } recDep "u1").err =
      (buildAndStartContainer
        { buildImageResult := some "build exploded",
          listContainersResult := .error "docker down" } recDep "u1").err ∧
    ((cleanupBody
        { buildImageResult := some "build exploded",
          listContainersResult := .error "docker down" } recDep "u1").2 =
          some "docker down" →
      Ev.log ("Cleanup failed: " ++ "docker down") ∈
        cleanup
          { buildImageResult := some "build exploded",
            listContainersResult := .error "docker down" } recDep "u1") := by
  have h := c3_cleanup_never_masks
    { buildImageResult := some "build exploded" }
    { buildImageResult := some "build exploded",
      listContainersResult := .error "docker down" }
    recDep "u1" "docker down" rfl rfl rfl rfl
  have h' := c3_cleanup_never_masks
    { buildImageResult := some "build exploded",
      listContainersResult := .error "docker down" }
    { buildImageResult := some "build exploded" }
    recDep "u1" "docker down" rfl rfl rfl rfl
  exact ⟨h.1, h.2.1, h'.2.2⟩

/-- C4 counterexample: on a deployment whose `containerId` is recorded but
whose container was removed out-of-band (the runtime's `stop` reports it
missing), `stopContainer` does NOT succeed silently: it logs and rethrows
the runtime error, refuting the claim that such a Stop succeeds without
raising. -/
theorem c4_counterexample :
    recDep.containerId = some "c123" ∧
    (stopContainer goneEnv recDep).err =
      some "(HTTP code 404) no such container" ∧
    (stopContainer goneEnv recDep).err ≠ none := by
  refine ⟨rfl, rfl, ?_⟩
  intro h
  simp [stopContainer, stopSteps, goneEnv, recDep] at h

/-- C4 amended: Stop is a silent no-op exactly when no `containerRef` is
recorded; when one is recorded, every runtime failure during Stop —
including the container being already absent — is logged and re-raised to
the caller. -/
theorem c4_amended :
    ∀ (env : DockerEnv) (d : Deployment),
      (d.containerId = none → stopContainer env d = ⟨[], none⟩) ∧
      (∀ cid e, d.containerId = some cid →
        (env.stopStopResult = some e ∨
         (env.stopStopResult = none ∧ env.stopRemoveResult = some e) ∨
         (env.stopStopResult = none ∧ env.stopRemoveResult = none ∧
           env.stopListImagesResult = .error e) ∨
         (env.stopStopResult = none ∧ env.stopRemoveResult = none ∧
           (∃ imgs ii, env.stopListImagesResult = .ok imgs ∧
             imgs.find? (fun img =>
               img.2.contains (imageTagLatest d)) = some ii ∧
             env.stopRemoveImageResult = some e)) ∨
         ((stopSteps env d cid).2 = none ∧ env.workspaceExists = true ∧
           env.rmWorkspaceResult = some e)) →
        (stopContainer env d).err = some e ∧
        Ev.log ("Error stopping container: " ++ e) ∈
          (stopContainer env d).trace) := by
  intro env d
  constructor
  · intro h
    unfold stopContainer
    rw [h]
  · intro cid e hc hcase
    rcases hcase with h | ⟨h1, h2⟩ | ⟨h1, h2, h3⟩ |
      ⟨h1, h2, imgs, ii, h3, h4, h5⟩ | ⟨hs, hw, hr⟩
    · exact stopContainer_err_of_steps env d cid e hc
        (stopSteps_err_stop env d cid e h)
    · exact stopContainer_err_of_steps env d cid e hc
        (stopSteps_err_remove env d cid e h1 h2)
    · exact stopContainer_err_of_steps env d cid e hc
        (stopSteps_err_listImages env d cid e h1 h2 h3)
    · exact stopContainer_err_of_steps env d cid e hc
        (stopSteps_err_removeImage env d cid e imgs ii h1 h2 h3 h4 h5)
    · exact stopContainer_err_of_ws env d cid e hc hs
        (wsRemove_err_some env d e hw hr)

/-- Witness for C4 amended: a deployment without a container reference;
one whose runtime `stop` fails with the container-absent error; and one
whose `fs.rmSync` fails after every earlier step succeeded. -/
theorem c4_witness :
    (({ recDep with containerId := none } : Deployment).containerId = none ∧
      stopContainer goneEnv { recDep with containerId := none } =
        ⟨[], none⟩) ∧
    (recDep.containerId = some "c123" ∧
      goneEnv.stopStopResult = some "(HTTP code 404) no such container" ∧
      (stopContainer goneEnv recDep).err =
        some "(HTTP code 404) no such container" ∧
      Ev.log ("Error stopping container: " ++
          "(HTTP code 404) no such container") ∈
        (stopContainer goneEnv recDep).trace) ∧
    ((stopSteps rmFailEnv recDep "c123").2 = none ∧
      rmFailEnv.workspaceExists = true ∧
      rmFailEnv.rmWorkspaceResult = some "EACCES: permission denied" ∧
      (stopContainer rmFailEnv recDep).err =
        some "EACCES: permission denied" ∧
      Ev.log ("Error stopping container: " ++
          "EACCES: permission denied") ∈
        (stopContainer rmFailEnv recDep).trace) :=
  ⟨⟨rfl, (c4_amended goneEnv { recDep with containerId := none }).1 rfl⟩,
    ⟨rfl, rfl,
      (c4_amended goneEnv recDep).2 "c123"
        "(HTTP code 404) no such container" rfl (Or.inl rfl)⟩,
    rfl, rfl, rfl,
    (c4_amended rmFailEnv recDep).2 "c123" "EACCES: permission denied" rfl
      (Or.inr (Or.inr (Or.inr (Or.inr ⟨rfl, rfl, rfl⟩))))⟩

/-- C7: restarting a deployment with no `containerId` makes
`restartContainer` throw its container-not-found error, and the restart
route then persists status `failed` with that message, answering 500. -/
theorem c7_restart_without_container :
    ∀ (env : DockerEnv) (d : Deployment) (u : String),
      d.containerId = none →
      (restartContainer env { d with status := .restarting }).err =
        some "Container ID not found" ∧
      (restartRoute env d u).out =
        .fail 500 "Restart failed" (restartRoute env d u).dep ∧
      (restartRoute env d u).dep.status = .failed ∧
      (restartRoute env d u).dep.logs = some "Container ID not found" ∧
      Ev.save (restartRoute env d u).dep ∈ (restartRoute env d u).trace ∧
      Ev.emit u "deployment_update" d.id (some .failed)
          (some "Container ID not found") ∈ (restartRoute env d u).trace := by
  intro env d u h
  have hr : restartContainer env { d with status := .restarting } =
      { dep := { d with status := .restarting }, trace := [],
        err := some "Container ID not found" } := by
    unfold restartContainer
    rw [show ({ d with status := Status.restarting } :
      Deployment).containerId = none from h]
  refine ⟨by rw [hr], ?_, ?_, ?_, ?_, ?_⟩ <;>
    · unfold restartRoute
      dsimp only
      rw [hr]
      try simp

/-- Witness for C7 at a concrete deployment without a container
reference. -/
theorem c7_witness :
    (({ recDep with containerId := none } : Deployment).containerId =
        none) ∧
    (restartRoute happyEnv { recDep with containerId := none }
        "u1").dep.status = .failed ∧
    (restartRoute happyEnv { recDep with containerId := none }
        "u1").dep.logs = some "Container ID not found" :=
  ⟨rfl,
    (c7_restart_without_container happyEnv
      { recDep with containerId := none } "u1" rfl).2.2.1,
    (c7_restart_without_container happyEnv
      { recDep with containerId := none } "u1" rfl).2.2.2.1⟩

lemma updateRoute_fields (req : UpdateReq) (d : Deployment) (u : String) :
    (updateRoute req d u).dep.status = d.status ∧
    (updateRoute req d u).dep.containerId = d.containerId ∧
    (updateRoute req d u).dep.url = d.url ∧
    (updateRoute req d u).dep.repoUrl = d.repoUrl ∧
    (updateRoute req d u).dep.branch = d.branch ∧
    (updateRoute req d u).dep.id = d.id ∧
    (updateRoute req d u).dep.user = d.user ∧
    (updateRoute req d u).dep.logs = d.logs := by
  obtain ⟨ev, bc, sc, nm⟩ := req
  unfold updateRoute
  rcases ev with _ | l <;> rcases bc with _ | b <;> rcases sc with _ | s <;>
    rcases nm with _ | n <;> dsimp only <;> (try split_ifs) <;> simp

/-- C9: Update mutates only envVars / buildCommand / startCommand / name,
each only when the field is supplied in the request; status, containerRef,
url, repoUrl and branch are unchanged, and the emitted `deployment_update`
carries the deployment's current (unchanged) status. -/
theorem c9_update_frame :
    ∀ (req : UpdateReq) (d : Deployment) (u : String),
      (updateRoute req d u).dep.status = d.status ∧
      (updateRoute req d u).dep.containerId = d.containerId ∧
      (updateRoute req d u).dep.url = d.url ∧
      (updateRoute req d u).dep.repoUrl = d.repoUrl ∧
      (updateRoute req d u).dep.branch = d.branch ∧
      ((updateRoute req d u).dep.envVars ≠ d.envVars →
        ∃ l, req.envVars = some l) ∧
      ((updateRoute req d u).dep.buildCommand ≠ d.buildCommand →
        ∃ s, req.buildCommand = some s) ∧
      ((updateRoute req d u).dep.startCommand ≠ d.startCommand →
        ∃ s, req.startCommand = some s) ∧
      ((updateRoute req d u).dep.name ≠ d.name → ∃ s, req.name = some s) ∧
      Ev.emit u "deployment_update" d.id (some d.status) none ∈
        (updateRoute req d u).trace := by
  intro req d u
  obtain ⟨ev, bc, sc, nm⟩ := req
  unfold updateRoute
  rcases ev with _ | l <;> rcases bc with _ | b <;> rcases sc with _ | s <;>
    rcases nm with _ | n <;> dsimp only <;> (try split_ifs) <;> simp

/-- Witness for C9: an update supplying a new buildCommand on a concrete
deployment. -/
theorem c9_witness :
    (updateRoute { buildCommand := some "yarn install" } recDep
        "u1").dep.status = recDep.status ∧
    (updateRoute { buildCommand := some "yarn install" } recDep
        "u1").dep.containerId = recDep.containerId ∧
    (((updateRoute { buildCommand := some "yarn install" } recDep
        "u1").dep.buildCommand ≠ recDep.buildCommand) →
      ∃ s, ({ buildCommand := some "yarn install" } :
        UpdateReq).buildCommand = some s) ∧
    Ev.emit "u1" "deployment_update" recDep.id (some recDep.status) none ∈
      (updateRoute { buildCommand := some "yarn install" } recDep
        "u1").trace := by
  have h := c9_update_frame { buildCommand := some "yarn install" } recDep "u1"
  exact ⟨h.1, h.2.1, h.2.2.2.2.2.2.1, h.2.2.2.2.2.2.2.2.2⟩

/-- C8: after a successful clone, a Dockerfile is synthesized exactly when
the workspace has none; the synthesized descriptor is the fixed
`node:14` template copying the workspace, running `buildCommand` and
launching `startCommand`; and the image build is tagged deterministically
from the deployment id. -/
theorem c8_descriptor_synthesis :
    ∀ (env : DockerEnv) (d : Deployment) (u : String),
      env.cloneResult = none →
      ((Ev.writeFile (repoDirOf d ++ "/Dockerfile")
          (dockerfileContent d.buildCommand d.startCommand) ∈
        (buildAndStartContainer env d u).trace) ↔
        env.dockerfileExists = false) ∧
      dockerfileContent d.buildCommand d.startCommand =
        "FROM node:14\nWORKDIR /app\nCOPY . .\nRUN " ++ d.buildCommand ++
          "\nCMD " ++ d.startCommand ∧
      Ev.buildImage (imageTagOf d) d.envVars ∈
        (buildAndStartContainer env d u).trace ∧
      imageTagOf d = "deploybot-" ++ d.id := by
  intro env d u hc
  refine ⟨?_, rfl, ?_, rfl⟩ <;>
  · unfold buildAndStartContainer
    dsimp only
    rw [hc]
    dsimp only
    rcases hdf : env.dockerfileExists <;>
      rcases hb : env.buildImageResult with _ | e2 <;>
        rcases hcr : env.createContainerResult with e3 | cid <;>
          rcases hs : env.startResult with _ | e4 <;>
            simp [hb, hcr, hs, writeFile_not_mem_cleanup,
              buildImage_not_mem_cleanup]

/-- Witness for C8: the default oracle (clone succeeds, no Dockerfile in
the workspace) on a concrete deployment. -/
theorem c8_witness :
    happyEnv.cloneResult = none ∧
    ((Ev.writeFile (repoDirOf recDep ++ "/Dockerfile")
        (dockerfileContent recDep.buildCommand recDep.startCommand) ∈
      (buildAndStartContainer happyEnv recDep "u1").trace) ↔
      happyEnv.dockerfileExists = false) ∧
    Ev.buildImage (imageTagOf recDep) recDep.envVars ∈
      (buildAndStartContainer happyEnv recDep "u1").trace :=
  ⟨rfl, (c8_descriptor_synthesis happyEnv recDep "u1" rfl).1,
    (c8_descriptor_synthesis happyEnv recDep "u1" rfl).2.2.1⟩

/-- C1 counterexample: on a fully successful Start with a valid request,
all five statuses are persisted in order, but the only `deployment_update`
published on the owner's channel carries `initializing` — there is no
matching publish after the cloning / building / starting / running
transitions, refuting the claim's "publishing a matching deployment_update
event ... after each transition". -/
theorem c1_counterexample :
    recordWrites (postDeployments happyEnv req1 "u1" "id1").2 =
      [.initializing, .cloning, .building, .starting, .running] ∧
    emits (postDeployments happyEnv req1 "u1" "id1").2 =
      [("u1", "deployment_update", some .initializing)] := by
  constructor <;> rfl

/-- C1 amended: a successful Start drives status strictly through
initializing → cloning → building → starting → running with a Deployment
Store write after each transition (create for the first, save for the
rest), but a `deployment_update` event is published on the owner's channel
only for `initializing`, not after the later transitions. -/
theorem c1_amended :
    ∀ (env : DockerEnv) (req : CreateReq) (u nid url : String),
      req.repoUrl = some url → validRepoUrl url = true →
      stageFailure env = none →
      recordWrites (postDeployments env req u nid).2 =
        [.initializing, .cloning, .building, .starting, .running] ∧
      emits (postDeployments env req u nid).2 =
        [(u, "deployment_update", some .initializing)] := by
  intro env req u nid url hr hv hs
  obtain ⟨h1, h2, ⟨cid, h3⟩, h4⟩ := stageFailure_none env hs
  unfold postDeployments
  rw [hr]
  simp only [hv, if_true]
  unfold buildAndStartContainer
  dsimp only
  rw [h1]
  dsimp only
  rcases hdf : env.dockerfileExists <;>
    simp [h2, h3, h4, recordWrites, emits, mkDeployment]

/-- Witness for C1 amended at the default oracle and a concrete valid
request. -/
theorem c1_witness :
    req1.repoUrl = some "https://github.com/a/b" ∧
    validRepoUrl "https://github.com/a/b" = true ∧
    stageFailure happyEnv = none ∧
    recordWrites (postDeployments happyEnv req1 "u1" "id1").2 =
      [.initializing, .cloning, .building, .starting, .running] ∧
    emits (postDeployments happyEnv req1 "u1" "id1").2 =
      [("u1", "deployment_update", some .initializing)] :=
  ⟨rfl, by decide, rfl,
    c1_amended happyEnv req1 "u1" "id1" "https://github.com/a/b" rfl
      (by decide) rfl⟩

lemma emit_not_mem_cleanup (env : DockerEnv) (d : Deployment)
    (u ch evn did : String) (st : Option Status) (lg : Option String) :
    Ev.emit ch evn did st lg ∉ cleanup env d u :=
  not_mem_cleanup env d u _ rfl

lemma stageFailure_some (env : DockerEnv) (e : String)
    (h : stageFailure env = some e) :
    env.cloneResult = some e ∨
    (env.cloneResult = none ∧ env.buildImageResult = some e) ∨
    (env.cloneResult = none ∧ env.buildImageResult = none ∧
      env.createContainerResult = .error e) ∨
    (env.cloneResult = none ∧ env.buildImageResult = none ∧
      (∃ cid, env.createContainerResult = .ok cid) ∧
      env.startResult = some e) := by
  unfold stageFailure at h
  rcases h1 : env.cloneResult with _ | e1 <;> rw [h1] at h
  · rcases h2 : env.buildImageResult with _ | e2 <;> rw [h2] at h
    · rcases h3 : env.createContainerResult with e3 | cid <;> rw [h3] at h
      · exact Or.inr (Or.inr (Or.inl ⟨rfl, rfl, by
          injection h with h'
          rw [h']⟩))
      · exact Or.inr (Or.inr (Or.inr ⟨rfl, rfl, ⟨cid, rfl⟩, h⟩))
    · injection h with h'
      exact Or.inr (Or.inl ⟨rfl, by rw [h']⟩)
  · injection h with h'
    exact Or.inl (by rw [h'])

/-- C2: when a pipeline stage fails, the later stages are never invoked,
cleanup runs, the route persists `failed` with the error message in
`logs`, emits the failure event on the owner's channel, answers 500, and
`buildAndStartContainer` re-raises the original stage error to the route
handler. -/
theorem c2_stage_failure_handling :
    ∀ (env : DockerEnv) (req : CreateReq) (u nid url e : String),
      req.repoUrl = some url → validRepoUrl url = true →
      stageFailure env = some e →
      (∃ df : Deployment,
        (postDeployments env req u nid).1 =
          .fail 500 "Deployment failed to start" df ∧
        df.status = .failed ∧ df.logs = some e ∧
        Ev.save df ∈ (postDeployments env req u nid).2 ∧
        Ev.emit u "deployment_update" nid (some .failed) (some e) ∈
          (postDeployments env req u nid).2) ∧
      Ev.listContainersQ ∈ (postDeployments env req u nid).2 ∧
      (buildAndStartContainer env (mkDeployment req u nid url) u).err =
        some e ∧
      (env.cloneResult = some e →
        (∀ t a, Ev.buildImage t a ∉ (postDeployments env req u nid).2) ∧
        (∀ i n v, Ev.createContainer i n v ∉
          (postDeployments env req u nid).2) ∧
        (∀ c, Ev.startContainer c ∉ (postDeployments env req u nid).2)) ∧
      (env.cloneResult = none → env.buildImageResult = some e →
        (∀ i n v, Ev.createContainer i n v ∉
          (postDeployments env req u nid).2) ∧
        (∀ c, Ev.startContainer c ∉ (postDeployments env req u nid).2)) ∧
      (env.cloneResult = none → env.buildImageResult = none →
        env.createContainerResult = .error e →
        (∀ c, Ev.startContainer c ∉ (postDeployments env req u nid).2)) := by
  intro env req u nid url e hr hv hs
  unfold postDeployments
  rw [hr]
  simp only [hv, if_true]
  unfold buildAndStartContainer
  dsimp only
  rcases stageFailure_some env e hs with h |
      ⟨h1, h2⟩ | ⟨h1, h2, h3⟩ | ⟨h1, h2, ⟨cid, h3⟩, h4⟩
  · rw [h]
    dsimp only
    refine ⟨⟨_, rfl, rfl, rfl, by simp,
        by simp [mkDeployment, emit_not_mem_cleanup]⟩,
      by simp [listQ_mem_cleanup], rfl, ?_, ?_, ?_⟩ <;>
      simp [buildImage_not_mem_cleanup, createContainer_not_mem_cleanup,
        startContainer_not_mem_cleanup]
  · rw [h1, h2]
    dsimp only
    rcases hdf : env.dockerfileExists <;>
      · refine ⟨⟨_, rfl, rfl, rfl, by simp,
            by simp [mkDeployment, emit_not_mem_cleanup]⟩,
          by simp [listQ_mem_cleanup], rfl, ?_, ?_, ?_⟩ <;>
          simp [buildImage_not_mem_cleanup, createContainer_not_mem_cleanup,
            startContainer_not_mem_cleanup]
  · rw [h1, h2, h3]
    dsimp only
    rcases hdf : env.dockerfileExists <;>
      · refine ⟨⟨_, rfl, rfl, rfl, by simp,
            by simp [mkDeployment, emit_not_mem_cleanup]⟩,
          by simp [listQ_mem_cleanup], rfl, ?_, ?_, ?_⟩ <;>
          simp [buildImage_not_mem_cleanup, createContainer_not_mem_cleanup,
            startContainer_not_mem_cleanup]
  · rw [h1, h2, h3, h4]
    dsimp only
    rcases hdf : env.dockerfileExists <;>
      · refine ⟨⟨_, rfl, rfl, rfl, by simp,
            by simp [mkDeployment, emit_not_mem_cleanup]⟩,
          by simp [listQ_mem_cleanup], rfl, ?_, ?_, ?_⟩ <;>
          simp [buildImage_not_mem_cleanup, createContainer_not_mem_cleanup,
            startContainer_not_mem_cleanup]

/-- Witness for C2 at a concrete clone failure. -/
theorem c2_witness :
    req1.repoUrl = some "https://github.com/a/b" ∧
    validRepoUrl "https://github.com/a/b" = true ∧
    stageFailure cloneFailEnv = some "fatal: could not read from remote" ∧
    Ev.listContainersQ ∈ (postDeployments cloneFailEnv req1 "u1" "id1").2 ∧
    (∀ t a, Ev.buildImage t a ∉
      (postDeployments cloneFailEnv req1 "u1" "id1").2) :=
  ⟨rfl, by decide, rfl,
    (c2_stage_failure_handling cloneFailEnv req1 "u1" "id1"
      "https://github.com/a/b" "fatal: could not read from remote"
      rfl (by decide) rfl).2.1,
    ((c2_stage_failure_handling cloneFailEnv req1 "u1" "id1"
      "https://github.com/a/b" "fatal: could not read from remote"
      rfl (by decide) rfl).2.2.2.1 rfl).1⟩

/-- C5 counterexample: when Stop fails, the delete route still removes the
record and emits `deployment_removed`, but the workspace directory is NOT
removed — refuting the claim that Terminate removes the workspace
regardless of Stop's outcome (workspace removal lives inside Stop, after
the steps that failed). -/
theorem c5_counterexample :
    recDep.containerId = some "c123" ∧
    (stopContainer stopFailEnv recDep).err = some "stop exploded" ∧
    Ev.removeRecord recDep.id ∈ (deleteRoute stopFailEnv recDep "u1").2 ∧
    Ev.emit "u1" "deployment_removed" recDep.id none none ∈
      (deleteRoute stopFailEnv recDep "u1").2 ∧
    (∀ dir, Ev.rmWorkspace dir ∉ (deleteRoute stopFailEnv recDep "u1").2) := by
  have ht : (deleteRoute stopFailEnv recDep "u1").2 =
      [Ev.stopC "c123", Ev.log "Error stopping container: stop exploded",
       Ev.log "Error stopping container: stop exploded",
       Ev.removeRecord "id1",
       Ev.emit "u1" "deployment_removed" "id1" none none] := rfl
  refine ⟨rfl, rfl, ?_, ?_, ?_⟩ <;> (simp only [ht]; simp [recDep])

/-- C5 amended: Terminate always removes the storage record, emits
`deployment_removed` and answers 200 regardless of Stop's outcome; a Stop
failure is logged; and the workspace directory is removed only inside
Stop — which requires a recorded containerRef, all of the stop / remove /
image steps to succeed, and an existing workspace. -/
theorem c5_amended :
    ∀ (env : DockerEnv) (d : Deployment) (u : String),
      (deleteRoute env d u).1 = .okEmpty 200 ∧
      Ev.removeRecord d.id ∈ (deleteRoute env d u).2 ∧
      Ev.emit u "deployment_removed" d.id none none ∈
        (deleteRoute env d u).2 ∧
      (∀ e, (stopContainer env d).err = some e →
        Ev.log ("Error stopping container: " ++ e) ∈
          (deleteRoute env d u).2) ∧
      (∀ dir, Ev.rmWorkspace dir ∈ (deleteRoute env d u).2 →
        ∃ cid, d.containerId = some cid ∧
          (stopSteps env d cid).2 = none ∧
          env.stopStopResult = none ∧ env.stopRemoveResult = none ∧
          (∃ imgs, env.stopListImagesResult = .ok imgs ∧
            (∀ ii, imgs.find? (fun img =>
                img.2.contains (imageTagLatest d)) = some ii →
              env.stopRemoveImageResult = none)) ∧
          env.workspaceExists = true) := by
  intro env d u
  refine ⟨rfl, by simp [deleteRoute], by simp [deleteRoute], ?_, ?_⟩
  · intro e he
    unfold deleteRoute
    dsimp only
    rw [he]
    simp
  · intro dir h
    unfold deleteRoute at h
    dsimp only at h
    rcases hcid : d.containerId with _ | cid
    · unfold stopContainer at h
      rw [hcid] at h
      simp at h
    · unfold stopContainer at h
      rw [hcid] at h
      dsimp only at h
      rcases hp : (stopSteps env d cid).2 with _ | e
      · rw [hp] at h
        dsimp only at h
        obtain ⟨hss, hsr, imgs, hok, himg⟩ := stopSteps_none_inv env d cid hp
        rcases hq : (wsRemove env d).2 with _ | e2
        · rw [hq] at h
          dsimp only at h
          simp [rmWorkspace_not_mem_stopSteps] at h
          exact ⟨cid, rfl, hp, hss, hsr, ⟨imgs, hok, himg⟩,
            wsRemove_nonempty_workspace env d dir h⟩
        · rw [hq] at h
          dsimp only at h
          simp [rmWorkspace_not_mem_stopSteps] at h
          exact ⟨cid, rfl, hp, hss, hsr, ⟨imgs, hok, himg⟩,
            wsRemove_nonempty_workspace env d dir h⟩
      · rw [hp] at h
        dsimp only at h
        simp [rmWorkspace_not_mem_stopSteps] at h

/-- Witness for C5 amended: the happy-path delete, whose Stop removes the
workspace, instantiating the necessary conditions from an actual
rmWorkspace event, together with a failing Stop whose error is logged in
the route trace. -/
theorem c5_witness :
    Ev.removeRecord recDep.id ∈ (deleteRoute happyEnv recDep "u1").2 ∧
    Ev.rmWorkspace (repoDirOf recDep) ∈ (deleteRoute happyEnv recDep "u1").2 ∧
    (∃ cid, recDep.containerId = some cid ∧
      (stopSteps happyEnv recDep cid).2 = none ∧
      happyEnv.stopStopResult = none ∧ happyEnv.stopRemoveResult = none ∧
      (∃ imgs, happyEnv.stopListImagesResult = .ok imgs ∧
        (∀ ii, imgs.find? (fun img =>
            img.2.contains (imageTagLatest recDep)) = some ii →
          happyEnv.stopRemoveImageResult = none)) ∧
      happyEnv.workspaceExists = true) ∧
    ((stopContainer stopFailEnv recDep).err = some "stop exploded" ∧
      Ev.log ("Error stopping container: " ++ "stop exploded") ∈
        (deleteRoute stopFailEnv recDep "u1").2) := by
  have ht : (deleteRoute happyEnv recDep "u1").2 =
      [Ev.stopC "c123", Ev.removeC "c123", Ev.listImagesQ,
       Ev.rmWorkspace (repoDirOf recDep),
       Ev.removeRecord "id1",
       Ev.emit "u1" "deployment_removed" "id1" none none] := rfl
  have hmem : Ev.rmWorkspace (repoDirOf recDep) ∈
      (deleteRoute happyEnv recDep "u1").2 := by simp [ht]
  exact ⟨by simp only [ht]; simp [recDep],
    hmem,
    (c5_amended happyEnv recDep "u1").2.2.2.2 (repoDirOf recDep) hmem,
    rfl,
    (c5_amended stopFailEnv recDep "u1").2.2.2.1 "stop exploded" rfl⟩

lemma bsc_dep_cases (env : DockerEnv) (d : Deployment) (u : String) :
    ((buildAndStartContainer env d u).dep.containerId = d.containerId ∧
      (buildAndStartContainer env d u).dep.url = d.url ∧
      (buildAndStartContainer env d u).dep.status ≠ .running) ∨
    (∃ cid, (buildAndStartContainer env d u).dep.containerId = some cid ∧
      (buildAndStartContainer env d u).dep.url =
        some (urlOf env.domain cid) ∧
      (buildAndStartContainer env d u).dep.status = .running) := by
  unfold buildAndStartContainer
  dsimp only
  rcases h1 : env.cloneResult with _ | e1 <;>
    rcases h2 : env.buildImageResult with _ | e2 <;>
      rcases h3 : env.createContainerResult with e3 | cid <;>
        rcases h4 : env.startResult with _ | e4 <;>
          first
            | (left; simp; done)
            | (right; exact ⟨cid, rfl, rfl, rfl⟩)

lemma restartRoute_dep_cases (env : DockerEnv) (d : Deployment)
    (u : String) :
    (restartRoute env d u).dep.containerId = d.containerId ∧
    (restartRoute env d u).dep.url = d.url ∧
    ((restartRoute env d u).dep.status = .running →
      d.containerId ≠ none) := by
  unfold restartRoute restartContainer
  dsimp only
  rcases hc : d.containerId with _ | cid
  · simp
  · rcases hr : env.restartResult with _ | e <;> simp [hc]

/-- C6 counterexample: after a successful Start the url carries an
`http://` scheme prefix, so it does not literally equal the 12-character
container-reference prefix joined with the configured domain. -/
theorem c6_counterexample :
    runDep.status = .running ∧
    runDep.containerId = some "c0ffee00c0ffee00c0ffee00" ∧
    runDep.url = some "http://c0ffee00c0ff.deploybot.app" ∧
    runDep.url ≠
      some ("c0ffee00c0ffee00c0ffee00".take 12 ++ "." ++ happyEnv.domain) := by
  refine ⟨rfl, rfl, rfl, ?_⟩
  decide

/-- C6 amended: on every deployment reachable through the operations,
status `running` implies containerRef and url are set, and the url is
`http://` followed by the first 12 characters of the container reference,
a dot, and the configured domain; the invariant holds at creation and is
preserved by the pipeline, restart and update. -/
theorem c6_running_invariant :
    ∀ (env : DockerEnv) (req : CreateReq) (ureq : UpdateReq)
      (d : Deployment) (u nid url : String),
      depInv env.domain (mkDeployment req u nid url) ∧
      (depInv env.domain d →
        depInv env.domain (buildAndStartContainer env d u).dep) ∧
      (depInv env.domain d → depInv env.domain (restartRoute env d u).dep) ∧
      (depInv env.domain d → depInv env.domain (updateRoute ureq d u).dep) ∧
      (depInv env.domain d → d.status = .running →
        ∃ c, d.containerId = some c ∧
          d.url = some ("http://" ++ c.take 12 ++ "." ++ env.domain)) := by
  intro env req ureq d u nid url
  refine ⟨⟨?_, ?_⟩, ?_, ?_, ?_, ?_⟩
  · intro c hc
    simp [mkDeployment] at hc
  · intro hrun
    simp [mkDeployment] at hrun
  · rintro ⟨hiv1, hiv2⟩
    rcases bsc_dep_cases env d u with ⟨hc, hu, hs⟩ | ⟨cid, hc, hu, hs⟩
    · refine ⟨fun c hcc => ?_, fun hr => absurd hr hs⟩
      rw [hu]
      exact hiv1 c (by rw [← hc]; exact hcc)
    · refine ⟨fun c hcc => ?_, fun _ => by rw [hc]; simp⟩
      have h : cid = c := Option.some.inj (hc.symm.trans hcc)
      rw [hu, ← h]
  · rintro ⟨hiv1, hiv2⟩
    obtain ⟨hc, hu, hs⟩ := restartRoute_dep_cases env d u
    refine ⟨fun c hcc => ?_, fun hr => ?_⟩
    · rw [hu]
      exact hiv1 c (by rw [← hc]; exact hcc)
    · rw [hc]
      exact hs hr
  · rintro ⟨hiv1, hiv2⟩
    obtain ⟨hst, hcid, hurl, -, -, -, -, -⟩ := updateRoute_fields ureq d u
    refine ⟨fun c hcc => ?_, fun hr => ?_⟩
    · rw [hurl]
      exact hiv1 c (by rw [← hcid]; exact hcc)
    · rw [hcid]
      exact hiv2 (by rw [← hst]; exact hr)
  · rintro ⟨hiv1, hiv2⟩ hrun
    rcases hcc : d.containerId with _ | c
    · exact absurd hcc (hiv2 hrun)
    · exact ⟨c, rfl, hiv1 c hcc⟩

/-- Witness for C6 at the deployment produced by a successful Start. -/
theorem c6_witness :
    depInv "deploybot.app" runDep ∧
    (∃ c, runDep.containerId = some c ∧
      runDep.url = some ("http://" ++ c.take 12 ++ "." ++ "deploybot.app")) := by
  have hinv : depInv "deploybot.app" runDep := by
    constructor
    · intro c hc
      have hc' : some "c0ffee00c0ffee00c0ffee00" = some c := hc
      injection hc' with h
      rw [← h]
      rfl
    · intro _
      simp [runDep, buildAndStartContainer, happyEnv, mkDeployment]
  exact ⟨hinv,
    (c6_running_invariant happyEnv req1 { } runDep "u1" "id1"
      "https://github.com/a/b").2.2.2.2 hinv rfl⟩
